import Mathlib

/-!
Verification development for `webserver.py` (NFC-e receipt scraper).

The file shallowly embeds the part of the program the claims are about:

* the BeautifulSoup HTML traversal used by `extrair_dados_nfce`
  (modelled on an explicit tree of tags and text nodes),
* the Python string operations the source applies (`replace`, `strip`,
  `split`, substring containment),
* `datetime.strptime(_, "%d/%m/%Y %H:%M:%S")` and the ISO-8601
  serialization anchored to `ZoneInfo("America/Sao_Paulo")`,
* the two database tables (`compra`, `produto`), the in-process feedback
  list, `inserir_dados_nfce_bd`, the `/nota` request handler and the
  `/feedback` handler.

External collaborators (Flask routing, Selenium page rendering, the
Supabase client transport) are treated as interfaces: the handler takes
the rendered, parsed HTML as an argument, and the persistence layer is an
explicit state record.  Exceptions are modelled with `Except`, and the
mutable module state (database contents plus the `feedbacks` list) is
threaded explicitly; a raised exception carries the state as mutated so
far, exactly as Python side effects persist across a raise.
-/

set_option maxRecDepth 8192

namespace NFCe

/-! ## Python string primitives

Python strings are modelled as Lean `String`s; the handful of `str`
methods the source uses are defined here over the underlying character
lists so that every definition is structurally recursive and reduces
inside the kernel. -/

/-- Python `str.strip()` on a character list: drop leading and trailing
whitespace. -/
def pyTrim (cs : List Char) : List Char :=
  ((cs.dropWhile Char.isWhitespace).reverse.dropWhile Char.isWhitespace).reverse

/-- Python `str.strip()`. -/
def pyStrip (s : String) : String := String.mk (pyTrim s.data)

/-- Scanner for Python `str.replace(old, new)`: replace each non-overlapping
occurrence of `pat`, left to right.  The `Nat` argument is fuel, always
instantiated with the length of the subject, so the recursion is structural;
each step consumes at least one character whenever `pat` is non-empty. -/
def replaceAux (pat rep : List Char) : Nat → List Char → List Char
  | _, [] => []
  | 0, s => s
  | n + 1, c :: rest =>
    if pat.isPrefixOf (c :: rest) then
      rep ++ replaceAux pat rep n ((c :: rest).drop pat.length)
    else
      c :: replaceAux pat rep n rest

/-- Python `s.replace(old, new)` (all occurrences).  The source never calls
`replace` with an empty pattern; that unreachable case is the identity here. -/
def pyReplace (s old new : String) : String :=
  if old.data.isEmpty then s
  else String.mk (replaceAux old.data new.data s.data.length s.data)

/-- Scanner for Python substring containment. -/
def pyContainsAux (pat : List Char) : List Char → Bool
  | [] => pat.isPrefixOf []
  | c :: rest => pat.isPrefixOf (c :: rest) || pyContainsAux pat rest

/-- Python `sub in s` on strings. -/
def pyIn (sub s : String) : Bool := pyContainsAux sub.data s.data

/-- Scanner for Python `s.split(sep)` with a non-empty separator; the `Nat`
argument is fuel instantiated with the subject length. -/
def splitOnAux (sep : List Char) : Nat → List Char → List Char → List (List Char)
  | _, [], acc => [acc.reverse]
  | 0, s, acc => [acc.reverse ++ s]
  | n + 1, c :: rest, acc =>
    if sep.isPrefixOf (c :: rest) then
      acc.reverse :: splitOnAux sep n ((c :: rest).drop sep.length) []
    else
      splitOnAux sep n rest (c :: acc)

/-- Python `s.split(sep)` for a non-empty separator (the only form the source
uses, at the `Emissão:` split). -/
def pySplitOn (s sep : String) : List String :=
  if sep.data.isEmpty then [s]
  else (splitOnAux sep.data s.data.length s.data []).map String.mk

/-- Scanner for Python `s.split()` (split on whitespace runs). -/
def splitWSAux : List Char → List Char → List (List Char)
  | [], acc => [acc.reverse]
  | c :: rest, acc =>
    if c.isWhitespace then acc.reverse :: splitWSAux rest []
    else splitWSAux rest (c :: acc)

/-- Python `' '.join(s.split())`: collapse every whitespace run to a single
space and drop leading/trailing whitespace (used for the address field). -/
def collapseWS (s : String) : String :=
  String.intercalate " " (((splitWSAux s.data []).map String.mk).filter (fun p => p != ""))

/-- Numeric value of a decimal digit character. -/
def digitVal (c : Char) : Nat := c.toNat - '0'.toNat

/-! ## The HTML tree and the BeautifulSoup operations the source uses

The rendered page is modelled as an ordered tree of element tags (with
attributes) and text nodes.  `Node`/`NodeList` are a mutual pair rather
than a nested inductive so that every traversal below is structurally
recursive and kernel-computable. -/

mutual
inductive Node where
  | text (s : String)
  | tag (nm : String) (attrs : List (String × String)) (children : NodeList)
inductive NodeList where
  | nil
  | cons (head : Node) (tail : NodeList)
end

def NodeList.ofList : List Node → NodeList
  | [] => .nil
  | n :: ns => .cons n (NodeList.ofList ns)

/-- Convenience builder for element nodes. -/
def tagN (nm : String) (attrs : List (String × String)) (cs : List Node) : Node :=
  .tag nm attrs (NodeList.ofList cs)

/-- Convenience builder for text nodes. -/
def txt (s : String) : Node := .text s

mutual
/-- All text fragments below a node, in document order (the strings that
`get_text` joins). -/
def nodeStrings : Node → List String
  | .text s => [s]
  | .tag _ _ cs => listStrings cs
def listStrings : NodeList → List String
  | .nil => []
  | .cons c rest => nodeStrings c ++ listStrings rest
end

/-- bs4 `get_text()`: concatenation of all descendant text fragments. -/
def getText (n : Node) : String := String.join (nodeStrings n)

/-- bs4 `get_text(strip=True)`: each text fragment stripped before joining
with the empty separator. -/
def getTextStrip (n : Node) : String := String.join ((nodeStrings n).map pyStrip)

mutual
/-- bs4 `.string`: defined when the element has exactly one child and that
child chain bottoms out in a single text node. -/
def tagString : Node → Option String
  | .text s => some s
  | .tag _ _ (.cons c .nil) => tagString c
  | .tag _ _ _ => none
end

/-- Attribute lookup on an element. -/
def attrOf (n : Node) (k : String) : Option String :=
  match n with
  | .tag _ attrs _ => (attrs.find? (fun a => a.1 == k)).map (fun a => a.2)
  | .text _ => none

/-- bs4 `class_=` filter: the `class` attribute is multi-valued
(whitespace-separated) and matches when it contains the requested token. -/
def hasClass (n : Node) (c : String) : Bool :=
  match attrOf n "class" with
  | some v => (((splitWSAux v.data []).map String.mk).filter (fun p => p != "")).contains c
  | none => false

/-- bs4 tag-name filter (text nodes never match a named search). -/
def isNamed (nm : String) : Node → Bool
  | .tag t _ _ => t == nm
  | .text _ => false

/-- bs4 `string=` filter combined with a tag search, as in Beautiful Soup
4.13: a tag whose `.string` is undefined does not match (the predicate is
only ever applied to an actual string). -/
def stringFilter (p : String → Bool) (n : Node) : Bool :=
  match tagString n with
  | some s => p s
  | none => false

mutual
/-- Document-order search for the first element satisfying `p` among the
descendants of a node, returning the match together with its following
siblings (the list `find_next_sibling` walks). -/
def nodeFindWF (p : Node → Bool) : Node → Option (Node × NodeList)
  | .text _ => none
  | .tag _ _ cs => listFindWF p cs
def listFindWF (p : Node → Bool) : NodeList → Option (Node × NodeList)
  | .nil => none
  | .cons c rest =>
    if p c then some (c, rest)
    else
      match nodeFindWF p c with
      | some r => some r
      | none => listFindWF p rest
end

/-- bs4 `tag.find(...)`: first matching descendant of `n` (excluding `n`). -/
def tagFind (p : Node → Bool) (n : Node) : Option Node :=
  (nodeFindWF p n).map Prod.fst

/-- bs4 `soup.find(...)`: first matching element of the whole document (the
root element included). -/
def soupFind (p : Node → Bool) (root : Node) : Option Node :=
  (listFindWF p (.cons root .nil)).map Prod.fst

/-- bs4 `find_next_sibling(...)`: first following sibling satisfying `p`. -/
def nextSibling (p : Node → Bool) : NodeList → Option Node
  | .nil => none
  | .cons c rest => if p c then some c else nextSibling p rest

mutual
/-- All matching descendants of a node, in document order (bs4 `find_all`). -/
def nodeFindAll (p : Node → Bool) : Node → List Node
  | .text _ => []
  | .tag _ _ cs => listFindAll p cs
def listFindAll (p : Node → Bool) : NodeList → List Node
  | .nil => []
  | .cons c rest => (if p c then [c] else []) ++ nodeFindAll p c ++ listFindAll p rest
end

/-- bs4 `soup.find_all(...)` over the whole document. -/
def soupFindAll (p : Node → Bool) (root : Node) : List Node :=
  listFindAll p (.cons root .nil)

/-! ## Exceptions, dynamic values and the data model -/

/-- The Python exception kinds the modelled code can raise. -/
inductive PyErr where
  | valueError (msg : String)
  | typeError (msg : String)
  | keyError (msg : String)
  | attributeError (msg : String)
  | indexError (msg : String)
deriving DecidableEq

/-- `str(e)` for an exception. -/
def PyErr.msg : PyErr → String
  | .valueError m => m
  | .typeError m => m
  | .keyError m => m
  | .attributeError m => m
  | .indexError m => m

/-- A value stored under a key of the `nfce_data` dict: the source stores
strings, but also a raw bs4 element (the discount label, line 210) and
Python `None` (lines 207/210 when a label is missing). -/
inductive PyVal where
  | str (s : String)
  | elem (n : Node)
  | null

/-- Python truthiness for the stored values; a bs4 element found by `find`
is truthy. -/
def PyVal.truthy : PyVal → Bool
  | .str s => s != ""
  | .elem _ => true
  | .null => false

/-- Behaviour of the attribute call `v.replace(",", ".")` on a dict value,
as executed by `inserir_dados_nfce_bd` (lines 277-281):
* on a `str` it is the string replace;
* on a bs4 element, bs4 resolves the unknown attribute `tag.replace` as
  `tag.find("replace")`, which yields `None`, and calling that raises
  `TypeError`;
* on `None` it would raise `AttributeError` (never reached: every such call
  is guarded by a truthiness test). -/
def PyVal.commaDot : PyVal → Except PyErr PyVal
  | .str s => .ok (.str (pyReplace s "," "."))
  | .elem _ => .error (.typeError "NoneType object is not callable")
  | .null => .error (.attributeError "NoneType object has no attribute replace")

/-- The serialized form a dict value takes in an inserted row: a string, or
SQL null for Python `None` (a raw element never reaches a row: its
normalization raises first). -/
def PyVal.toOptionStr : PyVal → Option String
  | .str s => some s
  | _ => none

/-- One element of the `itens` list built at lines 240-248. -/
structure Item where
  codigo : String
  nome : String
  quantidade : String
  tipo_unidade : String
  preco_unidade : String
  preco_total : String
  chave_compra : String
deriving DecidableEq

/-- The `nfce_data` dict returned by `extrair_dados_nfce`.  A field is
`none` exactly when the corresponding key is absent from the dict; for
`valor_total` and `desconto` the present value may itself be Python `None`
(`PyVal.null`). -/
structure NfceData where
  nome_comercio : String
  cnpj : Option String
  endereco : Option String
  data_compra : Option String
  qtd_total_itens : Option String
  valor_total : Option PyVal
  desconto : Option PyVal
  valor_pago : Option String
  chave_acesso : Option String
  itens : List Item

/-- A row of the `compra` table (line 277-284). -/
structure CompraRow where
  chave : String
  data : String
  valor_total : Option String
  desconto : Option String
  valor_pago : String
  nome_comercio : String
  endereco : String
  cnpj : String
deriving DecidableEq

/-- One entry of the module-level `feedbacks` list. -/
structure Feedback where
  code : Nat
  message : String
deriving DecidableEq

/-- The persistence collaborator: the two Supabase tables. -/
structure DB where
  compra : List CompraRow
  produto : List Item
deriving DecidableEq

/-- The mutable state a request sees: the database plus the process-wide
`feedbacks` list. -/
structure ServerState where
  db : DB
  feedbacks : List Feedback
deriving DecidableEq

/-- Bodies of the HTTP responses the handlers build. -/
inductive RespBody where
  | text (s : String)
  | jsonNfce (d : NfceData)
  | jsonErr (key msg : String)

structure HttpResponse where
  status : Nat
  body : RespBody

/-! ## `datetime.strptime` and the Sao Paulo ISO serialization -/

structure PyDateTime where
  year : Nat
  month : Nat
  day : Nat
  hour : Nat
  minute : Nat
  second : Nat
deriving DecidableEq

def isLeapYear (y : Nat) : Bool :=
  y % 4 == 0 && (y % 100 != 0 || y % 400 == 0)

def daysInMonth (y m : Nat) : Nat :=
  if m == 2 then (if isLeapYear y then 29 else 28)
  else if m == 4 || m == 6 || m == 9 || m == 11 then 30
  else 31

/-- The digit checks shared by the `%d/%m/%Y %H:%M:%S` format and the
extraction regular expression. -/
def dtDigitsOk (d1 d2 m1 m2 y1 y2 y3 y4 h1 h2 n1 n2 s1 s2 : Char) : Bool :=
  d1.isDigit && d2.isDigit && m1.isDigit && m2.isDigit &&
  y1.isDigit && y2.isDigit && y3.isDigit && y4.isDigit &&
  h1.isDigit && h2.isDigit && n1.isDigit && n2.isDigit &&
  s1.isDigit && s2.isDigit

/-- The shape of a match of `\d{2}/\d{2}/\d{4} \d{2}:\d{2}:\d{2}` (the
pattern at line 192): nineteen characters, digits in the fixed slots. -/
def matchesDTShape : List Char → Bool
  | [d1, d2, '/', m1, m2, '/', y1, y2, y3, y4, ' ', h1, h2, ':', n1, n2, ':', s1, s2] =>
      dtDigitsOk d1 d2 m1 m2 y1 y2 y3 y4 h1 h2 n1 n2 s1 s2
  | _ => false

/-- `re.search(r"\d{2}/\d{2}/\d{4} \d{2}:\d{2}:\d{2}", s)`: the leftmost
window matching the pattern, if any. -/
def searchDTAux : List Char → Option (List Char)
  | [] => none
  | c :: rest =>
    if matchesDTShape ((c :: rest).take 19) then some ((c :: rest).take 19)
    else searchDTAux rest

def reSearchDataHora (s : String) : Option String :=
  (searchDTAux s.data).map String.mk

/-- `datetime.strptime(s, "%d/%m/%Y %H:%M:%S")` (line 274), modelled on the
strings this program can pass it: `data_compra` is always a capture of the
extraction regular expression, so it has the exact two-digit
`DD/MM/YYYY HH:MM:SS` shape.  (Python would additionally accept one-digit
day/month/hour/minute/second fields, which can never reach this call
site.)  Out-of-range field values and calendar-invalid days raise
`ValueError`, as in CPython. -/
def strptime_dmy_hms (s : String) : Except PyErr PyDateTime :=
  match s.data with
  | [d1, d2, '/', m1, m2, '/', y1, y2, y3, y4, ' ', h1, h2, ':', n1, n2, ':', s1, s2] =>
    if dtDigitsOk d1 d2 m1 m2 y1 y2 y3 y4 h1 h2 n1 n2 s1 s2 then
      let day := 10 * digitVal d1 + digitVal d2
      let month := 10 * digitVal m1 + digitVal m2
      let year := 1000 * digitVal y1 + 100 * digitVal y2 + 10 * digitVal y3 + digitVal y4
      let hour := 10 * digitVal h1 + digitVal h2
      let minute := 10 * digitVal n1 + digitVal n2
      let second := 10 * digitVal s1 + digitVal s2
      if day == 0 || day > 31 || month == 0 || month > 12 ||
          hour > 23 || minute > 59 || second > 59 then
        .error (.valueError "time data does not match format")
      else if year == 0 then
        .error (.valueError "year 0 is out of range")
      else if day > daysInMonth year month then
        .error (.valueError "day is out of range for month")
      else
        .ok ⟨year, month, day, hour, minute, second⟩
    else .error (.valueError "time data does not match format")
  | _ => .error (.valueError "time data does not match format")

def pad2 (n : Nat) : String := if n < 10 then "0" ++ toString n else toString n

def pad4 (n : Nat) : String :=
  if n < 10 then "000" ++ toString n
  else if n < 100 then "00" ++ toString n
  else if n < 1000 then "0" ++ toString n
  else toString n

/-- Modelled from the IANA tzdata: `America/Sao_Paulo` has observed a fixed
UTC-03:00 offset, with no daylight saving, for every instant since
2019-11-03; the dates this system handles fall in that regime. -/
def saoPauloOffset : String := "-03:00"

/-- `dt.replace(tzinfo=ZoneInfo("America/Sao_Paulo")).isoformat()`
(line 275). -/
def isoformatSaoPaulo (dt : PyDateTime) : String :=
  pad4 dt.year ++ "-" ++ pad2 dt.month ++ "-" ++ pad2 dt.day ++ "T" ++
  pad2 dt.hour ++ ":" ++ pad2 dt.minute ++ ":" ++ pad2 dt.second ++ saoPauloOffset

/-! ## `extrair_dados_nfce` (lines 144-251), section by section -/

/-- The filter of line 203: `div` with `id='totalNota'`. -/
def isTotalNotaDiv (n : Node) : Bool :=
  isNamed "div" n && attrOf n "id" == some "totalNota"

/-- The filter of line 223: `table` with `id='tabResult'`. -/
def isTabResult (n : Node) : Bool :=
  isNamed "table" n && attrOf n "id" == some "tabResult"

/-- The filter of line 210: `label` whose `.string` is `Descontos R$:`. -/
def isDescontosLabel (n : Node) : Bool :=
  isNamed "label" n && stringFilter (fun t => t == "Descontos R$:") n

/-- The filter of line 216: `span` of class `chave`. -/
def isChaveSpan (n : Node) : Bool :=
  isNamed "span" n && hasClass n "chave"

/-- Lines 160-161: `soup.find('div', class_='txtTopo').get_text(strip=True)`.
The access is unguarded: with no such div, `find` returns `None` and the
attribute access raises `AttributeError`. -/
def extractNomeComercio (soup : Node) : Except PyErr String :=
  match soupFind (fun n => isNamed "div" n && hasClass n "txtTopo") soup with
  | some d => .ok (getTextStrip d)
  | none => .error (.attributeError "NoneType object has no attribute get_text")

/-- Lines 163-167: the first div whose `.string` contains `CNPJ:`; the label
substring removed and the result stripped.  Key set only when found. -/
def extractCNPJ (soup : Node) : Option String :=
  (soupFind (fun n => isNamed "div" n && stringFilter (fun t => pyIn "CNPJ:" t) n) soup).map
    (fun d => pyStrip (pyReplace (getTextStrip d) "CNPJ:" ""))

/-- Lines 169-174: the first div of class `text` whose `.string` does not
contain `CNPJ:`; whitespace collapsed.  Key set only when found. -/
def extractEndereco (soup : Node) : Option String :=
  (soupFind (fun n => isNamed "div" n && hasClass n "text" &&
      stringFilter (fun t => !(pyIn "CNPJ:" t)) n) soup).map
    (fun d => collapseWS (getTextStrip d))

/-- Lines 181-198, the body of the loop over collapsible divs: `acc` is the
current value of the `data_compra` key, overwritten whenever a later
collapsible section also yields a regex match. -/
def dataFromCollapsible (acc : Option String) (d : Node) : Option String :=
  match nodeFindWF (isNamed "h4") d with
  | none => acc
  | some (h4, sibs) =>
    if pyIn "Informações gerais da Nota" (getText h4) then
      match nextSibling (fun n => isNamed "div" n && hasClass n "ui-collapsible-content") sibs with
      | none => acc
      | some contentDiv =>
        match tagFind (isNamed "li") contentDiv with
        | none => acc
        | some li =>
          match pySplitOn (getText li) "Emissão:" with
          | _ :: parte1 :: _ =>
            match reSearchDataHora parte1 with
            | some m => some m
            | none => acc
          | _ => acc
    else acc

/-- Lines 176-198: scan every `div[data-role=collapsible]`. -/
def extractDataCompra (soup : Node) : Option String :=
  (soupFindAll (fun n => isNamed "div" n && attrOf n "data-role" == some "collapsible")
    soup).foldl dataFromCollapsible none

/-- The five keys the `totalNota` branch (lines 202-219) can set. -/
structure Totals where
  qtd_total_itens : Option String
  valor_total : Option PyVal
  desconto : Option PyVal
  valor_pago : Option String
  chave_acesso : Option String

/-- Lines 207-209: the `Valor total R$:` label element is stored, then — when
truthy — overwritten with its sibling span text (spaces removed); a label
with no span sibling makes the chained access raise. -/
def valorTotalStep (tdiv : Node) : Except PyErr PyVal :=
  match nodeFindWF (fun n => isNamed "label" n &&
      stringFilter (fun t => t == "Valor total R$:") n) tdiv with
  | none => .ok .null
  | some (_, sibs) =>
    match nextSibling (isNamed "span") sibs with
    | none => .error (.attributeError "NoneType object has no attribute get_text")
    | some sp => .ok (.str (pyReplace (getTextStrip sp) " " ""))

/-- Lines 210-212: the `Descontos R$:` LABEL ELEMENT ITSELF stays in the
dict; the sibling value text is computed — so its failure modes are still
raised — but the result is discarded (the statement at line 212 has no
assignment). -/
def descontoStep (tdiv : Node) : Except PyErr PyVal :=
  match nodeFindWF isDescontosLabel tdiv with
  | none => .ok .null
  | some (lbl, sibs) =>
    match nextSibling (isNamed "span") sibs with
    | none => .error (.attributeError "NoneType object has no attribute get_text")
    | some sp =>
      let _discarded := pyReplace (getTextStrip sp) " " ""
      .ok (.elem lbl)

/-- Line 213: `linhaShade` div, then its `totalNumb` span; both accesses are
unguarded. -/
def valorPagoStep (tdiv : Node) : Except PyErr String :=
  match tagFind (fun n => isNamed "div" n && hasClass n "linhaShade") tdiv with
  | none => .error (.attributeError "NoneType object has no attribute find")
  | some shade =>
    match tagFind (fun n => isNamed "span" n && hasClass n "totalNumb") shade with
    | none => .error (.attributeError "NoneType object has no attribute get_text")
    | some sp => .ok (pyReplace (getTextStrip sp) " " "")

/-- Lines 215-219.  Note the indentation of the source: this runs inside the
`if total_nota_div:` branch, so the access key is only extracted when the
totals container exists. -/
def chaveStep (soup : Node) : Option String :=
  (soupFind isChaveSpan soup).map
    (fun sp => pyReplace (getTextStrip sp) " " "")

/-- Lines 202-219: with no `totalNota` div the whole branch is skipped and
none of the five keys is set; otherwise the `Qtd. total de itens:` pair is
read unguarded, then the remaining steps run in source order. -/
def extractTotals (soup : Node) : Except PyErr Totals :=
  match soupFind isTotalNotaDiv soup with
  | none => .ok ⟨none, none, none, none, none⟩
  | some tdiv =>
    match nodeFindWF (fun n => isNamed "label" n &&
        stringFilter (fun t => t == "Qtd. total de itens:") n) tdiv with
    | none => .error (.attributeError "NoneType object has no attribute find_next_sibling")
    | some (_, qsibs) =>
      match nextSibling (isNamed "span") qsibs with
      | none => .error (.attributeError "NoneType object has no attribute get_text")
      | some qspan =>
        match valorTotalStep tdiv with
        | .error e => .error e
        | .ok vt =>
          match descontoStep tdiv with
          | .error e => .error e
          | .ok dsc =>
            match valorPagoStep tdiv with
            | .error e => .error e
            | .ok vp =>
              .ok ⟨some (getTextStrip qspan), some vt, some dsc, some vp, chaveStep soup⟩

/-- `find` returning `None` followed by an unguarded attribute access. -/
def tagFindOrErr (p : Node → Bool) (n : Node) : Except PyErr Node :=
  match tagFind p n with
  | some m => .ok m
  | none => .error (.attributeError "NoneType object has no attribute get_text")

def spanClass (c : String) (n : Node) : Bool := isNamed "span" n && hasClass n c

/-- Lines 227-248: one `tr`.  Rows with no `td` are skipped (`ok none`);
otherwise the five spans of the first cell, the `valor` span of the second
cell, and finally the `chave_acesso` dict access (a `KeyError` when the key
was never set) are evaluated in source order. -/
def processLinha (chave? : Option String) (linha : Node) : Except PyErr (Option Item) :=
  match nodeFindAll (isNamed "td") linha with
  | [] => .ok none
  | col0 :: restCols => do
    let rcod ← tagFindOrErr (spanClass "RCod") col0
    let codigo := pyStrip (pyReplace (pyReplace (getTextStrip rcod) "(Código:" "") ")" "")
    let ttit ← tagFindOrErr (spanClass "txtTit") col0
    let nome := getTextStrip ttit
    let rqtd ← tagFindOrErr (spanClass "Rqtd") col0
    let quantidade := pyReplace (pyReplace (getTextStrip rqtd) "Qtde.:" "") "," "."
    let run ← tagFindOrErr (spanClass "RUN") col0
    let unidade := pyReplace (getTextStrip run) "UN:" ""
    let rvl ← tagFindOrErr (spanClass "RvlUnit") col0
    let valorUnidade := pyReplace (pyReplace (getTextStrip rvl) "Vl. Unit.:" "") "," "."
    let col1 ← match restCols with
      | c1 :: _ => Except.ok c1
      | [] => Except.error (PyErr.indexError "list index out of range")
    let vspan ← tagFindOrErr (spanClass "valor") col1
    let valorTotalItem := pyReplace (getTextStrip vspan) "," "."
    let chave ← match chave? with
      | some k => Except.ok k
      | none => Except.error (PyErr.keyError "chave_acesso")
    return some { codigo := codigo, nome := nome, quantidade := pyStrip quantidade,
                  tipo_unidade := pyStrip unidade, preco_unidade := pyStrip valorUnidade,
                  preco_total := pyStrip valorTotalItem, chave_compra := chave }

/-- The `for linha in linhas_tabela:` loop (lines 227-248). -/
def processLinhas (chave? : Option String) : List Node → Except PyErr (List Item)
  | [] => .ok []
  | linha :: rest => do
    let item? ← processLinha chave? linha
    let restItems ← processLinhas chave? rest
    match item? with
    | some it => return it :: restItems
    | none => return restItems

/-- Lines 221-249: with no `table#tabResult` the item list is empty and no
error is raised; otherwise every `tr` under the table is processed. -/
def extractItens (soup : Node) (chave? : Option String) : Except PyErr (List Item) :=
  match soupFind isTabResult soup with
  | none => .ok []
  | some tab => processLinhas chave? (nodeFindAll (isNamed "tr") tab)

/-- `extrair_dados_nfce` (lines 144-251): the sections in source order. -/
def extrair_dados_nfce (soup : Node) : Except PyErr NfceData := do
  let nome ← extractNomeComercio soup
  let cnpj := extractCNPJ soup
  let endereco := extractEndereco soup
  let dataCompra := extractDataCompra soup
  let tot ← extractTotals soup
  let itens ← extractItens soup tot.chave_acesso
  return { nome_comercio := nome, cnpj := cnpj, endereco := endereco,
           data_compra := dataCompra, qtd_total_itens := tot.qtd_total_itens,
           valor_total := tot.valor_total, desconto := tot.desconto,
           valor_pago := tot.valor_pago, chave_acesso := tot.chave_acesso,
           itens := itens }

/-! ## `inserir_dados_nfce_bd` (lines 253-289) and the HTTP handlers -/

/-- `inserir_dados_nfce_bd`: duplicate check, timestamp normalization, then
the two inserts.  Exceptions propagate together with the state as mutated so
far (the duplicate branch appends its feedback entry before raising). -/
def inserir_dados_nfce_bd (scrapped : NfceData) (st : ServerState) :
    Except PyErr Unit × ServerState :=
  match scrapped.chave_acesso with
  | none => (.error (.keyError "chave_acesso"), st)
  | some chave =>
    if (st.db.compra.filter (fun row => row.chave == chave)).length == 0 then
      match scrapped.data_compra with
      | none => (.error (.keyError "data_compra"), st)
      | some ds =>
        match strptime_dmy_hms ds with
        | .error e => (.error e, st)
        | .ok dt =>
          match scrapped.valor_total with
          | none => (.error (.keyError "valor_total"), st)
          | some vtv =>
            match (if vtv.truthy then vtv.commaDot else .ok .null) with
            | .error e => (.error e, st)
            | .ok vt =>
              match scrapped.desconto with
              | none => (.error (.keyError "desconto"), st)
              | some dv =>
                match (if dv.truthy then dv.commaDot else .ok .null) with
                | .error e => (.error e, st)
                | .ok dsc =>
                  match scrapped.valor_pago with
                  | none => (.error (.keyError "valor_pago"), st)
                  | some vp =>
                    match scrapped.endereco with
                    | none => (.error (.keyError "endereco"), st)
                    | some ender =>
                      match scrapped.cnpj with
                      | none => (.error (.keyError "CNPJ"), st)
                      | some cn =>
                        let row : CompraRow :=
                          { chave := pyReplace chave "," ".",
                            data := isoformatSaoPaulo dt,
                            valor_total := vt.toOptionStr,
                            desconto := dsc.toOptionStr,
                            valor_pago := pyReplace vp "," ".",
                            nome_comercio := scrapped.nome_comercio,
                            endereco := ender,
                            cnpj := cn }
                        (.ok (),
                         { st with db := { compra := st.db.compra ++ [row],
                                           produto := st.db.produto ++ scrapped.itens } })
    else
      (.error (.valueError "Nota ja existe."),
       { st with feedbacks := st.feedbacks ++ [⟨409, "Nota ja existe."⟩] })

/-- The URL literal of line 75. -/
def nfceUrl : String :=
  "https://sat.sef.sc.gov.br/tax.NET/Sat.DFe.NFCe.Web/Consultas/NFCe_Detalhes.aspx"

/-- Lines 83-91: `except ValueError` answers 409 with the exception text and
appends NO feedback entry; every other exception answers 400 and appends a
`code: 400` entry. -/
def handleException (e : PyErr) (st : ServerState) : HttpResponse × ServerState :=
  match e with
  | .valueError m => ({ status := 409, body := .jsonErr "erro" m }, st)
  | e =>
    ({ status := 400, body := .jsonErr "error" e.msg },
     { st with feedbacks := st.feedbacks ++ [⟨400, "Um erro ocorreu: " ++ e.msg⟩] })

/-- The `POST /nota` handler (lines 71-91).  `renderedHtml` stands for the
result of the external `extrair_HTML(content)` Selenium call (only consumed
on the branch where the source performs it).  Note line 75: the check is
Python substring containment, `expected_url in content`. -/
def nota (content : String) (renderedHtml : Node) (st : ServerState) :
    HttpResponse × ServerState :=
  if pyIn nfceUrl content then
    match extrair_dados_nfce renderedHtml with
    | .error e => handleException e st
    | .ok nfce =>
      match inserir_dados_nfce_bd nfce st with
      | (.ok _, st1) =>
        ({ status := 200, body := .jsonNfce nfce },
         { st1 with feedbacks := st1.feedbacks ++ [⟨200, "Nova nota inserida com sucesso."⟩] })
      | (.error e, st1) => handleException e st1
  else
    ({ status := 400, body := .text "Erro: Conteudo nao bate com link esperado" },
     { st with feedbacks := st.feedbacks ++ [⟨400, "Conteudo nao bate com link esperado."⟩] })

/-- The `GET /feedback` handler (lines 63-68): `feedbacks.pop()` removes and
returns the LAST (most recently appended) entry; an empty list answers the
`code: 0` message and removes nothing. -/
def get_feedback (st : ServerState) : Feedback × ServerState :=
  if st.feedbacks.length > 0 then
    match st.feedbacks.getLast? with
    | some fb => (fb, { st with feedbacks := st.feedbacks.dropLast })
    | none => (⟨0, "Sem novos feedbacks"⟩, st)
  else (⟨0, "Sem novos feedbacks"⟩, st)

/-- Reading of the spec wording for the URL check, for comparison with the
code: the `content` field "must match a fixed host+path prefix", i.e. start
with the expected URL. -/
def specUrlPrefixMatch (content : String) : Bool :=
  nfceUrl.data.isPrefixOf content.data

/-! ## Concrete documents used by witnesses and counterexamples -/

/-- The collapsible general-information section shared by the samples. -/
def infoSection : Node :=
  tagN "div" [("data-role", "collapsible")] [
    tagN "h4" [] [txt "Informações gerais da Nota"],
    tagN "div" [("class", "ui-collapsible-content")] [
      tagN "ul" [] [
        tagN "li" [] [txt " Emissão: 05/03/2024 14:30:00 - Via NFC-e"]]]]

/-- Merchant header, CNPJ and address blocks shared by the samples. -/
def headerBlocks : List Node :=
  [tagN "div" [("class", "txtTopo")] [txt "MERCADO EXEMPLO LTDA"],
   tagN "div" [] [txt "CNPJ: 11.111.111/0001-11"],
   tagN "div" [("class", "text")] [txt "Rua A, 123   Centro"]]

/-- The totals container without a discount row. -/
def totalsDiv : Node :=
  tagN "div" [("id", "totalNota")] [
    tagN "div" [] [
      tagN "label" [] [txt "Qtd. total de itens:"],
      tagN "span" [] [txt "2"]],
    tagN "div" [] [
      tagN "label" [] [txt "Valor total R$:"],
      tagN "span" [] [txt "20,00"]],
    tagN "div" [("class", "linhaShade")] [
      tagN "label" [] [txt "Valor a pagar R$:"],
      tagN "span" [("class", "totalNumb")] [txt "20,00"]]]

/-- The totals container with a `Descontos R$:` row. -/
def totalsDivDesc : Node :=
  tagN "div" [("id", "totalNota")] [
    tagN "div" [] [
      tagN "label" [] [txt "Qtd. total de itens:"],
      tagN "span" [] [txt "2"]],
    tagN "div" [] [
      tagN "label" [] [txt "Valor total R$:"],
      tagN "span" [] [txt "20,00"]],
    tagN "div" [] [
      tagN "label" [] [txt "Descontos R$:"],
      tagN "span" [] [txt "1,00"]],
    tagN "div" [("class", "linhaShade")] [
      tagN "label" [] [txt "Valor a pagar R$:"],
      tagN "span" [("class", "totalNumb")] [txt "19,00"]]]

def chaveSpan : Node := tagN "span" [("class", "chave")] [txt "1234 5678 9012"]

/-- An item table with one header row (no `td`) and two data rows. -/
def itemTable : Node :=
  tagN "table" [("id", "tabResult")] [
    tagN "tr" [] [tagN "th" [] [txt "Itens adquiridos"]],
    tagN "tr" [] [
      tagN "td" [] [
        tagN "span" [("class", "txtTit")] [txt "ARROZ"],
        tagN "span" [("class", "RCod")] [txt "(Código: 111)"],
        tagN "span" [("class", "Rqtd")] [txt "Qtde.: 2"],
        tagN "span" [("class", "RUN")] [txt "UN: KG"],
        tagN "span" [("class", "RvlUnit")] [txt "Vl. Unit.: 5,00"]],
      tagN "td" [] [
        tagN "span" [("class", "valor")] [txt "10,00"]]],
    tagN "tr" [] [
      tagN "td" [] [
        tagN "span" [("class", "txtTit")] [txt "FEIJAO"],
        tagN "span" [("class", "RCod")] [txt "(Código: 222)"],
        tagN "span" [("class", "Rqtd")] [txt "Qtde.: 1"],
        tagN "span" [("class", "RUN")] [txt "UN: UN"],
        tagN "span" [("class", "RvlUnit")] [txt "Vl. Unit.: 10,00"]],
      tagN "td" [] [
        tagN "span" [("class", "valor")] [txt "10,00"]]]]

/-- A complete, well-formed page: every fragment the extractor looks for. -/
def sampleHtml : Node :=
  tagN "html" [] (headerBlocks ++ [infoSection, totalsDiv, chaveSpan, itemTable])

/-- The same page with a discount row in the totals container. -/
def sampleHtmlDesc : Node :=
  tagN "html" [] (headerBlocks ++ [infoSection, totalsDivDesc, chaveSpan, itemTable])

/-- A page whose totals container is ABSENT while the access-key span is
present; no item table. -/
def htmlNoTotals : Node :=
  tagN "html" [] (headerBlocks ++ [infoSection, chaveSpan])

/-- A page with totals and access key but NO item table. -/
def htmlNoTable : Node :=
  tagN "html" [] (headerBlocks ++ [infoSection, totalsDiv, chaveSpan])

/-- A page identical to `sampleHtml` except that the emission timestamp is
the calendar-invalid `31/02/2024 10:30:00` (it still matches the extraction
regular expression). -/
def htmlBadDate : Node :=
  tagN "html" []
    (headerBlocks ++
     [tagN "div" [("data-role", "collapsible")] [
        tagN "h4" [] [txt "Informações gerais da Nota"],
        tagN "div" [("class", "ui-collapsible-content")] [
          tagN "ul" [] [
            tagN "li" [] [txt " Emissão: 31/02/2024 10:30:00 - Via NFC-e"]]]],
      totalsDiv, chaveSpan, itemTable])

/-- The empty server state. -/
def st0 : ServerState := ⟨⟨[], []⟩, []⟩

/-- The two items `sampleHtml` yields. -/
def sampleItens : List Item :=
  [{ codigo := "111", nome := "ARROZ", quantidade := "2", tipo_unidade := "KG",
     preco_unidade := "5.00", preco_total := "10.00", chave_compra := "123456789012" },
   { codigo := "222", nome := "FEIJAO", quantidade := "1", tipo_unidade := "UN",
     preco_unidade := "10.00", preco_total := "10.00", chave_compra := "123456789012" }]

/-- The dict `extrair_dados_nfce` builds from `sampleHtml`. -/
def sampleNfce : NfceData :=
  { nome_comercio := "MERCADO EXEMPLO LTDA",
    cnpj := some "11.111.111/0001-11",
    endereco := some "Rua A, 123 Centro",
    data_compra := some "05/03/2024 14:30:00",
    qtd_total_itens := some "2",
    valor_total := some (.str "20,00"),
    desconto := some .null,
    valor_pago := some "20,00",
    chave_acesso := some "123456789012",
    itens := sampleItens }

/-- The dict built from `htmlNoTotals`: the `totalNota` branch never ran, so
the five keys it would set — the access key included — are absent. -/
def noTotalsNfce : NfceData :=
  { nome_comercio := "MERCADO EXEMPLO LTDA",
    cnpj := some "11.111.111/0001-11",
    endereco := some "Rua A, 123 Centro",
    data_compra := some "05/03/2024 14:30:00",
    qtd_total_itens := none,
    valor_total := none,
    desconto := none,
    valor_pago := none,
    chave_acesso := none,
    itens := [] }

/-- The discount label element of `totalsDivDesc`. -/
def descLabel : Node := tagN "label" [] [txt "Descontos R$:"]

/-- The dict built from `sampleHtmlDesc`: `desconto` holds the label element
itself. -/
def descNfce : NfceData :=
  { sampleNfce with desconto := some (.elem descLabel), valor_pago := some "19,00" }

/-- The dict built from `htmlBadDate`. -/
def badDateNfce : NfceData :=
  { sampleNfce with data_compra := some "31/02/2024 10:30:00" }

/-- A state whose `compra` table already holds a row keyed by the access key
of `sampleHtml`. -/
def dupState : ServerState :=
  ⟨⟨[{ chave := "123456789012", data := "2024-03-05T14:30:00-03:00",
       valor_total := some "20.00", desconto := none, valor_pago := "20.00",
       nome_comercio := "MERCADO EXEMPLO LTDA", endereco := "Rua A, 123 Centro",
       cnpj := "11.111.111/0001-11" }], []⟩, []⟩

/-- The pointwise effect of replacing the decimal comma. -/
def commaDotChar (c : Char) : Char := if c == ',' then '.' else c

/-! ## Helper lemmas -/

/-- With a singleton comma pattern, the replace scan is a character map
whenever the fuel covers the subject. -/
theorem replaceAux_comma_eq_map :
    ∀ (n : Nat) (cs : List Char), cs.length ≤ n →
      replaceAux [','] ['.'] n cs = cs.map commaDotChar
  | n, [], _ => by cases n <;> rfl
  | 0, c :: rest, h => by simp at h
  | n + 1, c :: rest, h => by
    have hr : rest.length ≤ n := by simpa using h
    have ih := replaceAux_comma_eq_map n rest hr
    by_cases hc : c = ','
    · subst hc
      simp [replaceAux, List.isPrefixOf, ih, commaDotChar]
    · have hcc : (',' == c) = false := by simp [Ne.symm hc]
      simp [replaceAux, List.isPrefixOf, hcc, ih, commaDotChar, hc]

/-- `s.replace(",", ".")` is the character map replacing commas by dots. -/
theorem pyReplace_comma_eq_map (s : String) :
    pyReplace s "," "." = String.mk (s.data.map commaDotChar) := by
  have h : (",".data.isEmpty) = false := rfl
  unfold pyReplace
  rw [h]
  simp only [Bool.false_eq_true, if_false]
  exact congrArg String.mk (replaceAux_comma_eq_map s.data.length s.data (le_refl _))

theorem commaDotChar_idem (c : Char) :
    commaDotChar (commaDotChar c) = commaDotChar c := by
  unfold commaDotChar
  by_cases h : c == ','
  · simp [h]
  · simp [h]

/-- A successful extraction is exactly the assembly of its sections. -/
theorem extrair_ok_decompose (soup : Node) (r : NfceData)
    (h : extrair_dados_nfce soup = .ok r) :
    ∃ nome tot itens,
      extractNomeComercio soup = .ok nome ∧
      extractTotals soup = .ok tot ∧
      extractItens soup tot.chave_acesso = .ok itens ∧
      r = { nome_comercio := nome, cnpj := extractCNPJ soup,
            endereco := extractEndereco soup, data_compra := extractDataCompra soup,
            qtd_total_itens := tot.qtd_total_itens, valor_total := tot.valor_total,
            desconto := tot.desconto, valor_pago := tot.valor_pago,
            chave_acesso := tot.chave_acesso, itens := itens } := by
  unfold extrair_dados_nfce at h
  simp only [bind, Except.bind] at h
  split at h
  · exact absurd h (by simp)
  · rename_i nome hnome
    split at h
    · exact absurd h (by simp)
    · rename_i tot htot
      split at h
      · exact absurd h (by simp)
      · rename_i itens hitens
        simp only [pure, Except.pure, Except.ok.injEq] at h
        exact ⟨nome, tot, itens, hnome, htot, hitens, h.symm⟩

/-- A row processed to `ok (some item)` has at least one data cell and its
item's back-reference comes from the receipt's access key. -/
theorem processLinha_ok_some (chave? : Option String) (linha : Node) (it : Item)
    (h : processLinha chave? linha = .ok (some it)) :
    nodeFindAll (isNamed "td") linha ≠ [] ∧ chave? = some it.chave_compra := by
  unfold processLinha at h
  cases hc : nodeFindAll (isNamed "td") linha with
  | nil => rw [hc] at h; exact absurd h (by simp)
  | cons col0 rest =>
    rw [hc] at h
    refine ⟨by simp, ?_⟩
    simp only [bind, Except.bind] at h
    split at h
    · exact absurd h (by simp)
    · split at h
      · exact absurd h (by simp)
      · split at h
        · exact absurd h (by simp)
        · split at h
          · exact absurd h (by simp)
          · split at h
            · exact absurd h (by simp)
            · split at h
              · split at h
                · exact absurd h (by simp)
                · split at h
                  · simp only [pure, Except.pure, Except.ok.injEq,
                      Option.some.injEq] at h
                    subst h
                    rfl
                  · exact absurd h (by simp)
              · exact absurd h (by simp)

/-- A row processed to `ok none` was skipped: it has no data cell. -/
theorem processLinha_ok_none (chave? : Option String) (linha : Node)
    (h : processLinha chave? linha = .ok none) :
    nodeFindAll (isNamed "td") linha = [] := by
  unfold processLinha at h
  cases hc : nodeFindAll (isNamed "td") linha with
  | nil => rfl
  | cons col0 rest =>
    rw [hc] at h
    simp only [bind, Except.bind] at h
    split at h
    · exact absurd h (by simp)
    · split at h
      · exact absurd h (by simp)
      · split at h
        · exact absurd h (by simp)
        · split at h
          · exact absurd h (by simp)
          · split at h
            · exact absurd h (by simp)
            · split at h
              · split at h
                · exact absurd h (by simp)
                · split at h
                  · simp only [pure, Except.pure] at h
                    exact absurd h (by simp)
                  · exact absurd h (by simp)
              · exact absurd h (by simp)

/-- A successful run of the row loop yields exactly one item per row with at
least one data cell, and every item's back-reference equals the receipt's
access key. -/
theorem processLinhas_ok (chave? : Option String) (rows : List Node) (items : List Item)
    (h : processLinhas chave? rows = .ok items) :
    items.length = (rows.filter
      (fun tr => !(nodeFindAll (isNamed "td") tr).isEmpty)).length ∧
    ∀ it ∈ items, chave? = some it.chave_compra := by
  induction rows generalizing items with
  | nil =>
    unfold processLinhas at h
    simp only [Except.ok.injEq] at h
    subst h
    simp
  | cons linha rest ih =>
    unfold processLinhas at h
    simp only [bind, Except.bind] at h
    split at h
    · exact absurd h (by simp)
    · rename_i item? hpl
      split at h
      · exact absurd h (by simp)
      · rename_i restItems hrest
        obtain ⟨ihlen, ihmem⟩ := ih restItems hrest
        cases item? with
        | none =>
          have htd := processLinha_ok_none chave? linha hpl
          simp only [pure, Except.pure, Except.ok.injEq] at h
          subst h
          refine ⟨?_, ihmem⟩
          simp [List.filter_cons, htd, ihlen]
        | some it =>
          have hsome := processLinha_ok_some chave? linha it hpl
          simp only [pure, Except.pure, Except.ok.injEq] at h
          subst h
          have hlin : (!(nodeFindAll (isNamed "td") linha).isEmpty) = true := by
            cases hfa : nodeFindAll (isNamed "td") linha with
            | nil => exact absurd hfa hsome.1
            | cons a l => rfl
          constructor
          · simp [List.filter_cons, hlin, ihlen]
          · intro x hx
            cases hx with
            | head => exact hsome.2
            | tail _ hx => exact ihmem x hx

/-- With no access key in the dict, a successful extraction can only have
produced an empty item list (a data row would have raised `KeyError`). -/
theorem extractItens_none_chave (soup : Node) (items : List Item)
    (h : extractItens soup none = .ok items) : items = [] := by
  unfold extractItens at h
  split at h
  · simp only [Except.ok.injEq] at h
    exact h.symm
  · have hmem := (processLinhas_ok none _ items h).2
    cases items with
    | nil => rfl
    | cons it rest => exact absurd (hmem it (by simp)) (by simp)

/-! ## The claims -/

/-- C8: decimal normalization maps `"12,50"` to `"12.50"`, leaves the
already-normalized `"12.50"` unchanged, and the comma-to-dot conversion the
program applies to its monetary and quantity fields (`pyReplace _ "," "."`,
used at lines 233, 235, 238, 277-281) is idempotent on every string. -/
theorem claim8_decimal_normalization :
    pyReplace "12,50" "," "." = "12.50" ∧
    pyReplace "12.50" "," "." = "12.50" ∧
    ∀ s : String, pyReplace (pyReplace s "," ".") "," "." = pyReplace s "," "." := by
  refine ⟨rfl, rfl, fun s => ?_⟩
  rw [pyReplace_comma_eq_map, pyReplace_comma_eq_map]
  show String.mk ((s.data.map commaDotChar).map commaDotChar) = _
  rw [List.map_map]
  exact congrArg String.mk
    (List.map_congr_left (fun c _ => commaDotChar_idem c))

/-- C10: `GET /feedback` removes and returns the most recently appended
feedback entry when the log is non-empty, and answers the `code: 0`
"no new feedback" message, removing nothing, when the log is empty. -/
theorem claim10_feedback_pop (db : DB) (l : List Feedback) (fb : Feedback) :
    get_feedback ⟨db, l ++ [fb]⟩ = (fb, ⟨db, l⟩) ∧
    get_feedback ⟨db, []⟩ = (⟨0, "Sem novos feedbacks"⟩, ⟨db, []⟩) := by
  constructor
  · unfold get_feedback
    simp [List.getLast?_concat, List.dropLast_concat]
  · rfl

/-- C7: the timestamp `"05/03/2024 14:30:00"` parses to the corresponding
wall-clock instant, its Sao-Paulo-anchored ISO-8601 serialization (the value
`inserir_dados_nfce_bd` stores) is `"2024-03-05T14:30:00-03:00"`, and in
general `strptime_dmy_hms` only accepts strings of the exact
`DD/MM/YYYY HH:MM:SS` shape. -/
theorem claim7_timestamp :
    strptime_dmy_hms "05/03/2024 14:30:00" = .ok ⟨2024, 3, 5, 14, 30, 0⟩ ∧
    isoformatSaoPaulo ⟨2024, 3, 5, 14, 30, 0⟩ = "2024-03-05T14:30:00-03:00" ∧
    ∀ (s : String) (dt : PyDateTime), strptime_dmy_hms s = .ok dt →
      matchesDTShape s.data = true := by
  refine ⟨rfl, rfl, fun s dt h => ?_⟩
  unfold strptime_dmy_hms at h
  split at h
  · rename_i d1 d2 m1 m2 y1 y2 y3 y4 h1 h2 n1 n2 s1 s2 heq
    rw [heq]
    split at h
    · rename_i hdig
      exact hdig
    · exact absurd h (by simp)
  · exact absurd h (by simp)

/-- C7 witness: the general shape property applied at the concrete
timestamp. -/
theorem claim7_timestamp_witness :
    matchesDTShape ("05/03/2024 14:30:00").data = true :=
  claim7_timestamp.2.2 "05/03/2024 14:30:00" ⟨2024, 3, 5, 14, 30, 0⟩ (by rfl)

/-- C5 (amended): the handler rejects with 400, appends the rejection
feedback entry and touches nothing else exactly when the expected URL does
not occur as a SUBSTRING of the `content` field (line 75 tests
`expected_url in content`, containment, not a prefix match — see the
counterexample). -/
theorem claim5_url_check (content : String) (renderedHtml : Node) (st : ServerState)
    (h : pyIn nfceUrl content = false) :
    nota content renderedHtml st =
      ({ status := 400, body := .text "Erro: Conteudo nao bate com link esperado" },
       { st with feedbacks := st.feedbacks ++
          [⟨400, "Conteudo nao bate com link esperado."⟩] }) := by
  unfold nota
  rw [h]
  simp

/-- C5 witness: a content field not containing the expected URL. -/
theorem claim5_url_check_witness :
    nota "https://example.com/nota" (txt "") st0 =
      ({ status := 400, body := .text "Erro: Conteudo nao bate com link esperado" },
       { st0 with feedbacks := st0.feedbacks ++
          [⟨400, "Conteudo nao bate com link esperado."⟩] }) :=
  claim5_url_check "https://example.com/nota" (txt "") st0 (by rfl)

/-- C5 counterexample: a content field that does NOT start with the expected
host+path prefix (it has a leading junk character) is nevertheless accepted:
the request returns 200 and persists a receipt, because line 75 only tests
substring containment. -/
theorem claim5_counterexample :
    specUrlPrefixMatch ("x" ++ nfceUrl) = false ∧
    (nota ("x" ++ nfceUrl) sampleHtml st0).1.status = 200 ∧
    (nota ("x" ++ nfceUrl) sampleHtml st0).2.db.compra ≠ [] := by
  refine ⟨rfl, rfl, ?_⟩
  intro hc
  have h : (nota ("x" ++ nfceUrl) sampleHtml st0).2.db.compra.length = 1 := rfl
  rw [hc] at h
  simp at h

/-- C1: a submission whose access key already has a `compra` row answers 409
with body `erro: Nota ja existe.`, appends the `code: 409` feedback entry,
and leaves the database — both tables — exactly as it was. -/
theorem claim1_duplicate (content : String) (renderedHtml : Node) (st : ServerState)
    (r : NfceData) (k : String)
    (hurl : pyIn nfceUrl content = true)
    (hext : extrair_dados_nfce renderedHtml = .ok r)
    (hkey : r.chave_acesso = some k)
    (hdup : st.db.compra.filter (fun row => row.chave == k) ≠ []) :
    nota content renderedHtml st =
      ({ status := 409, body := .jsonErr "erro" "Nota ja existe." },
       { st with feedbacks := st.feedbacks ++ [⟨409, "Nota ja existe."⟩] }) := by
  have hlen : ((st.db.compra.filter (fun row => row.chave == k)).length == 0) = false := by
    cases hfl : st.db.compra.filter (fun row => row.chave == k) with
    | nil => exact absurd hfl hdup
    | cons a l => rfl
  unfold nota inserir_dados_nfce_bd
  simp [hurl, hext, hkey, hlen, handleException]

/-- C1 witness: re-submitting the sample receipt against a state that
already holds its access key. -/
theorem claim1_duplicate_witness :
    nota nfceUrl sampleHtml dupState =
      ({ status := 409, body := .jsonErr "erro" "Nota ja existe." },
       { dupState with feedbacks := dupState.feedbacks ++ [⟨409, "Nota ja existe."⟩] }) :=
  claim1_duplicate nfceUrl sampleHtml dupState sampleNfce "123456789012"
    (by rfl) (by rfl) (by rfl) (by decide)

/-- C3 (amended): a captured timestamp that fails `strptime` raises
`ValueError`, which the handler's first `except` clause (line 83) converts
to HTTP 409 — not 400 — with the exception text as body, and WITHOUT
appending any feedback entry (the state is returned unchanged).  The rest of
the taxonomy stands: URL mismatch gives 400, a duplicate key gives 409, and
other failures give 400 with a generic message. -/
theorem claim3_timestamp_error (content : String) (renderedHtml : Node) (st : ServerState)
    (r : NfceData) (k ds m : String)
    (hurl : pyIn nfceUrl content = true)
    (hext : extrair_dados_nfce renderedHtml = .ok r)
    (hkey : r.chave_acesso = some k)
    (hfresh : st.db.compra.filter (fun row => row.chave == k) = [])
    (hds : r.data_compra = some ds)
    (hbad : strptime_dmy_hms ds = .error (.valueError m)) :
    nota content renderedHtml st = ({ status := 409, body := .jsonErr "erro" m }, st) := by
  have hlen : ((st.db.compra.filter (fun row => row.chave == k)).length == 0) = true := by
    rw [hfresh]; rfl
  unfold nota inserir_dados_nfce_bd
  simp [hurl, hext, hkey, hlen, hds, hbad, handleException]

/-- C3 witness: the page with emission timestamp `31/02/2024 10:30:00`
(regex-matching but calendar-invalid) submitted against the empty state. -/
theorem claim3_timestamp_error_witness :
    nota nfceUrl htmlBadDate st0 =
      ({ status := 409, body := .jsonErr "erro" "day is out of range for month" }, st0) :=
  claim3_timestamp_error nfceUrl htmlBadDate st0 badDateNfce "123456789012"
    "31/02/2024 10:30:00" "day is out of range for month"
    (by rfl) (by rfl) (by rfl) (by rfl) (by rfl) (by rfl)

/-- C3 counterexample: for the concrete calendar-invalid timestamp page the
response status is 409, not the 400 the claim requires. -/
theorem claim3_counterexample :
    (nota nfceUrl htmlBadDate st0).1.status ≠ 400 ∧
    (nota nfceUrl htmlBadDate st0).1.status = 409 := by
  refine ⟨?_, rfl⟩
  intro hc
  have h : (nota nfceUrl htmlBadDate st0).1.status = 409 := rfl
  rw [hc] at h
  simp at h

/-- C2 (amended): when the totals container is absent, a successful
extraction lacks not only the four totals fields but also the ACCESS KEY
(lines 215-219 sit inside the `if total_nota_div:` branch), and its item
list is necessarily empty — an item table with a data row would instead
abort the extraction with a `KeyError` on the missing key. -/
theorem claim2_no_totals (soup : Node) (r : NfceData)
    (htot : soupFind isTotalNotaDiv soup = none)
    (hext : extrair_dados_nfce soup = .ok r) :
    r.qtd_total_itens = none ∧ r.valor_total = none ∧ r.desconto = none ∧
    r.valor_pago = none ∧ r.chave_acesso = none ∧ r.itens = [] := by
  obtain ⟨nome, tot, itens, hnome, htots, hitens, hr⟩ := extrair_ok_decompose soup r hext
  have htoteq : tot = ⟨none, none, none, none, none⟩ := by
    unfold extractTotals at htots
    rw [htot] at htots
    simp only [Except.ok.injEq] at htots
    exact htots.symm
  subst htoteq
  have hempty : itens = [] := extractItens_none_chave soup itens hitens
  subst hr
  simp [hempty]

/-- C2 witness: the amended behaviour at the concrete no-totals page. -/
theorem claim2_no_totals_witness :
    noTotalsNfce.qtd_total_itens = none ∧ noTotalsNfce.valor_total = none ∧
    noTotalsNfce.desconto = none ∧ noTotalsNfce.valor_pago = none ∧
    noTotalsNfce.chave_acesso = none ∧ noTotalsNfce.itens = [] :=
  claim2_no_totals htmlNoTotals noTotalsNfce (by rfl) (by rfl)

/-- C2 counterexample: in `htmlNoTotals` the totals container is absent
while a `chave` span (text `1234 5678 9012`) is present, yet extraction
produces a dict with NO access key — refuting that all other fields,
the whitespace-stripped access key included, are still extracted. -/
theorem claim2_counterexample :
    soupFind isTotalNotaDiv htmlNoTotals = none ∧
    soupFind isChaveSpan htmlNoTotals = some chaveSpan ∧
    extrair_dados_nfce htmlNoTotals = .ok noTotalsNfce ∧
    noTotalsNfce.chave_acesso = none :=
  ⟨rfl, rfl, rfl, rfl⟩

/-- C4 (amended): the absence of the item table or of the totals block never
raises an extraction error: a missing `table#tabResult` contributes an empty
item list and a missing `div#totalNota` merely leaves the five totals-branch
keys unset. -/
theorem claim4_missing_fragments (soup : Node) (chave? : Option String)
    (htab : soupFind isTabResult soup = none)
    (htot : soupFind isTotalNotaDiv soup = none) :
    extractItens soup chave? = .ok [] ∧
    extractTotals soup = .ok ⟨none, none, none, none, none⟩ := by
  constructor
  · unfold extractItens
    rw [htab]
  · unfold extractTotals
    rw [htot]

/-- C4 witness: both absences at the concrete no-totals page. -/
theorem claim4_missing_fragments_witness :
    extractItens htmlNoTotals (some "123456789012") = .ok [] ∧
    extractTotals htmlNoTotals = .ok ⟨none, none, none, none, none⟩ :=
  claim4_missing_fragments htmlNoTotals (some "123456789012") (by rfl) (by rfl)

/-- C4 counterexample: `htmlNoTable` has no item table — a fragment the
claim calls structurally required — yet extraction succeeds, returning the
full record with an empty item list instead of failing with an extraction
error. -/
theorem claim4_counterexample :
    soupFind isTabResult htmlNoTable = none ∧
    extrair_dados_nfce htmlNoTable = .ok { sampleNfce with itens := [] } :=
  ⟨rfl, rfl⟩

/-- C9: when the item table is found, a successful extraction yields exactly
one item per `tr` with at least one `td` — zero-cell rows such as header
rows are skipped — and every produced item's back-reference equals the
receipt's access key. -/
theorem claim9_items (soup tab : Node) (r : NfceData)
    (htab : soupFind isTabResult soup = some tab)
    (hext : extrair_dados_nfce soup = .ok r) :
    r.itens.length = ((nodeFindAll (isNamed "tr") tab).filter
      (fun tr => !(nodeFindAll (isNamed "td") tr).isEmpty)).length ∧
    ∀ it ∈ r.itens, r.chave_acesso = some it.chave_compra := by
  obtain ⟨nome, tot, itens, hnome, htots, hitens, hr⟩ := extrair_ok_decompose soup r hext
  unfold extractItens at hitens
  rw [htab] at hitens
  have hres := processLinhas_ok tot.chave_acesso _ itens hitens
  subst hr
  exact hres

/-- C9 witness: the sample page, whose table has one header row and two data
rows. -/
theorem claim9_items_witness :
    sampleNfce.itens.length = ((nodeFindAll (isNamed "tr") itemTable).filter
      (fun tr => !(nodeFindAll (isNamed "td") tr).isEmpty)).length ∧
    ∀ it ∈ sampleNfce.itens, sampleNfce.chave_acesso = some it.chave_compra :=
  claim9_items sampleHtml itemTable sampleNfce (by rfl) (by rfl)

/-- Whatever the rest of the dict and the database state, an insertion whose
`desconto` holds a raw element never succeeds: every path either raises
before reaching the discount normalization or raises `TypeError` inside
it. -/
theorem inserir_desconto_elem (r : NfceData) (t : Node) (st : ServerState)
    (hd : r.desconto = some (.elem t)) :
    (inserir_dados_nfce_bd r st).1.isOk = false := by
  unfold inserir_dados_nfce_bd
  split
  · rfl
  · split
    · split
      · rfl
      · split
        · rfl
        · split
          · rfl
          · rename_i vtv hveq
            cases hnorm : (if vtv.truthy = true then vtv.commaDot else Except.ok PyVal.null) with
            | error e => rfl
            | ok vt =>
              rw [hd]
              rfl
    · rfl

/-- Helper for C6: a successful totals branch run packages the result of
`descontoStep` under the `desconto` key. -/
theorem extractTotals_ok_desconto (soup tdiv : Node) (tot : Totals)
    (hfind : soupFind isTotalNotaDiv soup = some tdiv)
    (h : extractTotals soup = .ok tot) :
    ∃ dsc, descontoStep tdiv = .ok dsc ∧ tot.desconto = some dsc := by
  unfold extractTotals at h
  rw [hfind] at h
  dsimp only [] at h
  split at h
  · exact absurd h (by simp)
  · split at h
    · exact absurd h (by simp)
    · split at h
      · exact absurd h (by simp)
      · split at h
        · exact absurd h (by simp)
        · rename_i dsc hdsc
          split at h
          · exact absurd h (by simp)
          · simp only [Except.ok.injEq] at h
            exact ⟨dsc, hdsc, by rw [← h]⟩

/-- C6: when the totals container is present and a `Descontos R$:` label is
found inside it (with its sibling value span), a successful extraction
stores the LABEL ELEMENT ITSELF — a truthy, non-string node — under
`desconto`, the sibling value text having been computed and discarded; the
insert operation then applies its comma-to-dot normalization to that node
and never completes successfully, whatever the database state. -/
theorem claim6_desconto_defect (soup tdiv lbl : Node) (sibs : NodeList)
    (r : NfceData) (st : ServerState)
    (htot : soupFind isTotalNotaDiv soup = some tdiv)
    (hlbl : nodeFindWF isDescontosLabel tdiv = some (lbl, sibs))
    (hext : extrair_dados_nfce soup = .ok r) :
    r.desconto = some (.elem lbl) ∧ PyVal.truthy (.elem lbl) = true ∧
    (inserir_dados_nfce_bd r st).1.isOk = false := by
  obtain ⟨nome, tot, itens, hnome, htots, hitens, hr⟩ := extrair_ok_decompose soup r hext
  obtain ⟨dsc, hdstep, htotd⟩ := extractTotals_ok_desconto soup tdiv tot htot htots
  have hdsc2 : dsc = .elem lbl := by
    unfold descontoStep at hdstep
    rw [hlbl] at hdstep
    dsimp only [] at hdstep
    split at hdstep
    · exact absurd hdstep (by simp)
    · simp only [Except.ok.injEq] at hdstep
      exact hdstep.symm
  have hrd : r.desconto = some (.elem lbl) := by
    rw [hr]
    show tot.desconto = _
    rw [htotd, hdsc2]
  exact ⟨hrd, rfl, inserir_desconto_elem r lbl st hrd⟩

/-- C6 witness: the sample page with a discount row, against the empty
state. -/
theorem claim6_desconto_defect_witness :
    descNfce.desconto = some (.elem descLabel) ∧
    PyVal.truthy (.elem descLabel) = true ∧
    (inserir_dados_nfce_bd descNfce st0).1.isOk = false :=
  claim6_desconto_defect sampleHtmlDesc totalsDivDesc descLabel
    (NodeList.ofList [tagN "span" [] [txt "1,00"]]) descNfce st0
    (by rfl) (by rfl) (by rfl)

end NFCe
